import Mathlib

/-!
Pod placement scheduling-gate webhook and the fake image inspector.

A shallow embedding of

* `controllers/podplacement/scheduling_gate_mutating_webhook.go`
  (`patchedPodResponse`, `Handle`), and
* `pkg/image/fake/inspector.go`
  (`MockImagesArchitectureMap`, `GetCompatibleArchitecturesSet`).

Go strings and byte slices are byte sequences, so both are lists of bytes here.
Nilable Go values (maps, slices, pointers) are `Option`s: `none` is `nil`.
-/

namespace MultiarchManager

/-! ## Go values -/

/-- A Go `string`: an immutable sequence of bytes. -/
abbrev GoString := List UInt8

/-- A Go `[]byte`. -/
abbrev GoBytes := List UInt8

/-- The bytes of a string literal of the source (its UTF-8 encoding). -/
def go (s : String) : GoString := s.data.flatMap String.utf8EncodeChar

/-- A Go `error`, kept as its message. -/
abbrev GoError := GoString

/-- Go's `strings.HasPrefix(s, prefix)`:
`len(s) >= len(prefix) && s[:len(prefix)] == prefix`. -/
def HasPrefix (s pre : GoString) : Bool :=
  decide (s.length ≥ pre.length) && (s.take pre.length == pre)

/-- A Go `map[string]string` that is not nil, as its entries. -/
abbrev GoMap := List (GoString × GoString)

/-- The map read `m[k]` with its presence flag: the value stored under `k`, if any. -/
def GoMap.get (m : GoMap) (k : GoString) : Option GoString :=
  (m.find? (fun e => e.1 == k)).map Prod.snd

/-- The map write `m[k] = v`: the value under `k` is replaced when the key is there,
and the entry is added otherwise. -/
def GoMap.set : GoMap → GoString → GoString → GoMap
  | [], k, v => [(k, v)]
  | e :: m, k, v => if e.1 == k then (k, v) :: m else e :: GoMap.set m k v

/-! ## The Kubernetes objects the webhook reads and writes -/

/-- The type `corev1.PodSchedulingGate`. -/
structure PodSchedulingGate where
  Name : GoString
  deriving DecidableEq, Repr

/-- The type `corev1.Affinity`: three nilable pointers. What they point to is never
inspected by the webhook and is kept as an uninterpreted payload. -/
structure Affinity where
  NodeAffinity : Option GoBytes
  PodAffinity : Option GoBytes
  PodAntiAffinity : Option GoBytes
  deriving DecidableEq, Repr

/-- The fields of `corev1.PodSpec` the webhook touches; `Rest` stands for all the
other fields, which the webhook neither reads nor writes. -/
structure PodSpec where
  SchedulingGates : Option (List PodSchedulingGate)
  Affinity : Option Affinity
  Rest : GoBytes
  deriving DecidableEq, Repr

/-- The type `corev1.Pod`, with the promoted `ObjectMeta` fields the webhook uses;
`Rest` stands for every other field (type meta, the remaining object meta, status). -/
structure Pod where
  Name : GoString
  Namespace : GoString
  Labels : Option GoMap
  Spec : PodSpec
  Rest : GoBytes
  deriving DecidableEq, Repr

/-- The value `&corev1.Affinity{}`. -/
def Affinity.empty : Affinity := ⟨none, none, none⟩

/-! ## Names that `Handle` takes from package `pkg/utils` -/

/-- The values `Handle` reads from package `pkg/utils`, whose declarations are not part of
the two source files: the result of `utils.Namespace()` (the namespace the operator runs
in) and the two label keys `utils.SchedulingGateLabel` and `utils.NodeAffinityLabel`. -/
structure Utils where
  Namespace : GoString
  SchedulingGateLabel : GoString
  NodeAffinityLabel : GoString
  deriving DecidableEq, Repr

/-- Modelled from the spec: the constant `utils.SchedulingGateLabelValueGated`, declared in
package `pkg/utils`; the spec gives the label recording that the gate was added the fixed
value "gated". -/
def SchedulingGateLabelValueGated : GoString := go "gated"

/-- Modelled from the spec: the constant `utils.NodeAffinityLabelValueUnset`, declared in
package `pkg/utils`; the spec gives the label recording that node-affinity resolution is
pending the fixed value "unset". -/
def NodeAffinityLabelValueUnset : GoString := go "unset"

/-! ## The admission request and response -/

/-- The type `runtime.RawExtension`, reduced to its raw bytes. -/
structure RawExtension where
  Raw : GoBytes
  deriving DecidableEq, Repr

/-- The type `admission.Request`, reduced to the object it carries. -/
structure Request where
  Object : RawExtension
  deriving DecidableEq, Repr

/-- The constant `http.StatusBadRequest`. -/
def StatusBadRequest : Nat := 400

/-- The constant `http.StatusInternalServerError`. -/
def StatusInternalServerError : Nat := 500

/-- The type `jsonpatch.JsonPatchOperation`: one operation of a JSON patch. The value is
kept as the bytes of its JSON text. -/
structure JsonPatchOperation where
  Operation : GoString
  Path : GoString
  Value : GoBytes
  deriving DecidableEq, Repr

/-- The type `admission.Response`, by the two shapes a response of the webhook has: the
response `admission.Errored(code, err)`, which denies with a status code and the error,
and the response that allows and carries the operations of a patch (none when the two
documents do not differ). -/
inductive Response where
  | Errored (code : Nat) (err : GoError)
  | Patched (patches : List JsonPatchOperation)
  deriving DecidableEq, Repr

/-- The type `*runtime.Scheme`; never inspected by the webhook, an uninterpreted payload. -/
structure Scheme where
  Payload : GoBytes
  deriving DecidableEq, Repr

/-- The type `*admission.Decoder`, which is built from a scheme. -/
structure Decoder where
  scheme : Scheme
  deriving DecidableEq, Repr

/-- The call `admission.NewDecoder(scheme)`. -/
def NewDecoder (scheme : Scheme) : Decoder := ⟨scheme⟩

/-- The three library calls on bytes, which are not part of this repository:
`decoder.Decode(req, pod)` of controller-runtime, `json.Marshal(pod)` of apimachinery and
`jsonpatch.CreatePatch(original, current)`. Each either fails with an error or yields its
result. -/
structure Codec where
  Decode : Decoder → Request → Except GoError Pod
  Marshal : Pod → Except GoError GoBytes
  CreatePatch : GoBytes → GoBytes → Except GoError (List JsonPatchOperation)

/-- The function `admission.PatchResponseFromRaw` of controller-runtime: it computes the
patch from `original` to `current` with `jsonpatch.CreatePatch`, answers
`Errored(http.StatusInternalServerError, err)` when that fails, and otherwise the allowed
response that carries the patch. -/
def PatchResponseFromRaw (c : Codec) (original current : GoBytes) : Response :=
  match c.CreatePatch original current with
  | .error err => Response.Errored StatusInternalServerError err
  | .ok patches => Response.Patched patches

/-- The type `PodSchedulingGateMutatingWebHook`. The field `decoder` is nil until the
first call of `Handle`; the field `Client` is read by neither method and is left out. -/
structure PodSchedulingGateMutatingWebHook where
  decoder : Option Decoder
  Scheme : Scheme
  deriving DecidableEq, Repr

/-! ## The webhook -/

/-- The constant `schedulingGateName`. -/
def schedulingGateName : GoString := go "multiarch.openshift.io/scheduling-gate"

/-- The package variable `schedulingGate`. -/
def schedulingGate : PodSchedulingGate := ⟨schedulingGateName⟩

/-- The method `patchedPodResponse`. The pod is passed by pointer and the request carries a
byte slice, so the function returns, next to its response, the pod and the request as they
are when it returns. -/
def patchedPodResponse (c : Codec) (pod : Pod) (req : Request) : Response × Pod × Request :=
  match c.Marshal pod with
  | .error err => (Response.Errored StatusInternalServerError err, pod, req)
  | .ok marshaledPod => (PatchResponseFromRaw c req.Object.Raw marshaledPod, pod, req)

/-- The condition of the first `if` of `Handle` on the pod (lines 70-71): the namespace is
the operator's, or starts with `openshift-`, `hypershift-` or `kube-`. -/
def Handle.exempt (u : Utils) (ns : GoString) : Bool :=
  u.Namespace == ns || HasPrefix ns (go "openshift-") ||
    HasPrefix ns (go "hypershift-") || HasPrefix ns (go "kube-")

/-- The loop of `Handle` over the scheduling gates (lines 81-85): `true` when it returns
from inside, at the first gate named `schedulingGateName`. -/
def Handle.gatePresent : List PodSchedulingGate → Bool
  | [] => false
  | g :: gates => if g.Name == schedulingGateName then true else Handle.gatePresent gates

/-- The pod part of `Handle` (lines 69-103): from the decoded pod to the pod it passes to
`patchedPodResponse`. -/
def Handle.inject (u : Utils) (pod : Pod) : Pod :=
  if Handle.exempt u pod.Namespace then pod
  else
    let pod1 : Pod :=
      match pod.Spec.SchedulingGates with
      | none => { pod with Spec := { pod.Spec with SchedulingGates := some [] } }
      | some _ => pod
    let gates : List PodSchedulingGate := pod1.Spec.SchedulingGates.getD []
    if Handle.gatePresent gates then pod1
    else
      let pod2 : Pod :=
        { pod1 with Spec := { pod1.Spec with SchedulingGates := some (gates ++ [schedulingGate]) } }
      let pod3 : Pod :=
        match pod2.Spec.Affinity with
        | none => { pod2 with Spec := { pod2.Spec with Affinity := some Affinity.empty } }
        | some _ => pod2
      let pod4 : Pod :=
        match pod3.Labels with
        | none => { pod3 with Labels := some [] }
        | some _ => pod3
      let labels : GoMap := pod4.Labels.getD []
      let labels1 := labels.set u.SchedulingGateLabel SchedulingGateLabelValueGated
      let labels2 := labels1.set u.NodeAffinityLabel NodeAffinityLabelValueUnset
      { pod4 with Labels := some labels2 }

/-- The method `Handle`: its response and the webhook after the call (the decoder is
created on the first call). -/
def Handle (c : Codec) (u : Utils) (a : PodSchedulingGateMutatingWebHook) (req : Request) :
    Response × PodSchedulingGateMutatingWebHook :=
  let decoder : Decoder := a.decoder.getD (NewDecoder a.Scheme)
  let a1 : PodSchedulingGateMutatingWebHook := { a with decoder := some decoder }
  match c.Decode decoder req with
  | .error err => (Response.Errored StatusBadRequest err, a1)
  | .ok pod => ((patchedPodResponse c (Handle.inject u pod) req).1, a1)

/-! ## The fake image inspector -/

/-- The type `registryInspector` of package `fake`. -/
structure registryInspector where
  globalPullSecret : GoBytes
  deriving DecidableEq, Repr

/-- The type `context.Context`; never inspected by the fake, an uninterpreted payload. -/
structure Context where
  Payload : GoBytes
  deriving DecidableEq, Repr

/-- The architecture and image constants of package `fake`. -/
def ArchitectureAmd64 : GoString := go "amd64"
def ArchitectureArm64 : GoString := go "arm64"
def ArchitecturePpc64le : GoString := go "ppc64le"
def ArchitectureS390x : GoString := go "s390x"

def SingleArchAmd64Image : GoString := go "my-registry.io/library/single-arch-amd64-image:latest"
def SingleArchArm64Image : GoString := go "my-registry.io/library/single-arch-arm64-image:latest"
def MultiArchImage : GoString := go "my-registry.io/library/multi-arch-image:latest"
def MultiArchImage2 : GoString := go "my-registry.io/library/multi-arch-image2:latest"

/-- The type `sets.Set[string]`. -/
abbrev StringSet := Finset GoString

/-- The function `MockImagesArchitectureMap`: the entries of the map literal. -/
def MockImagesArchitectureMap : List (GoString × StringSet) :=
  [ (SingleArchAmd64Image, {ArchitectureAmd64}),
    (SingleArchArm64Image, {ArchitectureArm64}),
    (MultiArchImage, {ArchitectureAmd64, ArchitectureArm64}),
    (MultiArchImage2, {ArchitectureAmd64, ArchitectureArm64, ArchitecturePpc64le,
      ArchitectureS390x}) ]

/-- The map read `m[k]` with its presence flag, for the mock map. -/
def mockLookup (m : List (GoString × StringSet)) (k : GoString) : Option StringSet :=
  (m.find? (fun e => e.1 == k)).map Prod.snd

/-- How a Go call ends: it returns its values, or it panics at run time. -/
inductive Outcome (α : Type) where
  | returned (values : α)
  | panicked (message : String)
  deriving DecidableEq, Repr

/-- The method `GetCompatibleArchitecturesSet` of the fake inspector. The result is the
pair `(supportedArchitectures, err)` of nilable values; the slice expression
`imageReference[2:]` panics when the reference has fewer than two bytes. -/
def GetCompatibleArchitecturesSet (_i : registryInspector) (_ctx : Context)
    (imageReference : GoString) (_secrets : List GoBytes) :
    Outcome (Option StringSet × Option GoError) :=
  if imageReference.length < 2 then
    .panicked "slice bounds out of range"
  else
    let imageReference := imageReference.drop 2
    match mockLookup MockImagesArchitectureMap imageReference with
    | some archSet => .returned (some archSet, none)
    | none => .returned (none, some (go "image not found"))

/-! ## Values used in the examples -/

/-- A configuration of package `pkg/utils` for the examples: the operator runs in
`openshift-multiarch-manager-operator` and the two label keys differ. -/
def exampleUtils : Utils :=
  ⟨go "openshift-multiarch-manager-operator", go "multiarch.openshift.io/scheduling-gate",
    go "multiarch.openshift.io/node-affinity"⟩

/-- A pod of the given namespace with the given gates, labels and affinity. -/
def examplePod (ns : GoString) (gates : Option (List PodSchedulingGate))
    (labels : Option GoMap) (affinity : Option Affinity) : Pod :=
  ⟨go "pod", ns, labels, ⟨gates, affinity, []⟩, []⟩

/-- The JSON text of a pod named `pod`, as a client writes it, up to its namespace. -/
def exampleJSONHead : GoBytes :=
  go "\x7b\"apiVersion\":\"v1\",\"kind\":\"Pod\",\"metadata\":\x7b\"name\":\"pod\",\"namespace\":\""

/-- The JSON text of a pod after its namespace. -/
def exampleJSONTail : GoBytes := go "\"\x7d\x7d"

/-- The JSON text of a pod named `pod` in the namespace `ns`, as a client writes it. -/
def exampleJSON (ns : GoString) : GoBytes := exampleJSONHead ++ ns ++ exampleJSONTail

/-- The YAML text of a pod named `pod`, up to its namespace. -/
def exampleYAMLHead : GoBytes :=
  go "apiVersion: v1\nkind: Pod\nmetadata:\n  name: pod\n  namespace: "

/-- The YAML text of a pod after its namespace. -/
def exampleYAMLTail : GoBytes := go "\n"

/-- The YAML text of a pod named `pod` in the namespace `ns`. -/
def exampleYAML (ns : GoString) : GoBytes := exampleYAMLHead ++ ns ++ exampleYAMLTail

/-- The bytes a namespace name is made of: lower-case letters, digits and the dash. -/
def isNameByte (b : UInt8) : Bool :=
  (decide (97 ≤ b) && decide (b ≤ 122)) || (decide (48 ≤ b) && decide (b ≤ 57)) || b == 45

/-- The namespace `ns` when `raw` is `head ++ ns ++ tail` for a non-empty name `ns`. -/
def readDocument (head tail raw : GoBytes) : Option GoString :=
  if HasPrefix raw head then
    let rest := raw.drop head.length
    let ns := rest.takeWhile isNameByte
    if ns ≠ [] ∧ rest.drop ns.length = tail then some ns else none
  else none

/-- A string as JSON text, between double quotes. -/
def jsonString (s : GoString) : GoBytes := 34 :: s ++ [34]

/-- The JSON text `json.Marshal` gives for a pod, on the fields of the examples: kind and
version, name, namespace, the null creation timestamp, the labels in the order of their
keys when there are any, the spec with its null container list, an affinity (written as
the empty object, the only one the examples serialise) and the scheduling gates when
there are any, and the empty status. -/
def exampleMarshal (pod : Pod) : GoBytes :=
  go "\x7b\"kind\":\"Pod\",\"apiVersion\":\"v1\",\"metadata\":\x7b\"name\":" ++ jsonString pod.Name
    ++ go ",\"namespace\":" ++ jsonString pod.Namespace ++ go ",\"creationTimestamp\":null"
    ++ (match pod.Labels with
        | some (e :: m) =>
          go ",\"labels\":\x7b" ++ List.intercalate [44]
            (((e :: m).insertionSort (fun x y => x.1 ≤ y.1)).map
              (fun l => jsonString l.1 ++ [58] ++ jsonString l.2)) ++ go "\x7d"
        | _ => [])
    ++ go "\x7d,\"spec\":\x7b\"containers\":null"
    ++ (match pod.Spec.Affinity with
        | some _ => go ",\"affinity\":\x7b\x7d"
        | none => [])
    ++ (match pod.Spec.SchedulingGates with
        | some (g :: gs) =>
          go ",\"schedulingGates\":[" ++ List.intercalate [44]
            ((g :: gs).map (fun x => go "\x7b\"name\":" ++ jsonString x.Name ++ go "\x7d"))
            ++ go "]"
        | _ => [])
    ++ go "\x7d,\"status\":\x7b\x7d\x7d"

/-- Whether the bytes open and close as a JSON object does. -/
def isJSONObject (b : GoBytes) : Bool := b.head? == some 123 && b.getLast? == some 125

/-- A stand-in for `jsonpatch.CreatePatch` in the examples: it refuses a buffer that is
not a JSON object with the error of the library, gives no operation for equal documents,
and otherwise one operation that replaces the whole document (the library gives
operations field by field). -/
def exampleCreatePatch (original current : GoBytes) :
    Except GoError (List JsonPatchOperation) :=
  if isJSONObject original && isJSONObject current then
    if original = current then .ok [] else .ok [⟨go "replace", [], current⟩]
  else .error (go "invalid JSON Document")

/-- A codec for the examples, on the documents of the examples: an empty raw object does
not decode; the JSON and the YAML text of a pod named `pod` decode to that pod in its
namespace, and other bytes do not decode; a pod serialises to its JSON text. -/
def exampleCodec : Codec where
  Decode := fun _ req =>
    if req.Object.Raw = [] then .error (go "EOF")
    else
      match readDocument exampleJSONHead exampleJSONTail req.Object.Raw with
      | some ns => .ok (examplePod ns none none none)
      | none =>
        match readDocument exampleYAMLHead exampleYAMLTail req.Object.Raw with
        | some ns => .ok (examplePod ns none none none)
        | none => .error (go "couldn't get version/kind; json parse error")
  Marshal := fun pod => .ok (exampleMarshal pod)
  CreatePatch := exampleCreatePatch

/-- The number of entries of the pod's gate sequence that are named `schedulingGateName`. -/
def gateCount (pod : Pod) : Nat :=
  ((pod.Spec.SchedulingGates.getD []).filter (fun g => g.Name == schedulingGateName)).length

/-! ## Auxiliary facts -/

theorem HasPrefix_iff (s pre : GoString) :
    HasPrefix s pre = true ↔ ∃ rest, s = pre ++ rest := by
  unfold HasPrefix
  constructor
  · intro h
    simp only [Bool.and_eq_true, decide_eq_true_eq, beq_iff_eq] at h
    have happ := List.take_append_drop pre.length s
    rw [h.2] at happ
    exact ⟨s.drop pre.length, happ.symm⟩
  · rintro ⟨rest, rfl⟩
    simp

theorem Handle.exempt_iff (u : Utils) (ns : GoString) :
    Handle.exempt u ns = true ↔
      (ns = u.Namespace ∨ (∃ rest, ns = go "openshift-" ++ rest) ∨
        (∃ rest, ns = go "hypershift-" ++ rest) ∨ (∃ rest, ns = go "kube-" ++ rest)) := by
  unfold Handle.exempt
  simp only [Bool.or_eq_true, beq_iff_eq, HasPrefix_iff]
  constructor
  · rintro (((h | h) | h) | h)
    · exact Or.inl h.symm
    · exact Or.inr (Or.inl h)
    · exact Or.inr (Or.inr (Or.inl h))
    · exact Or.inr (Or.inr (Or.inr h))
  · rintro (h | h | h | h)
    · exact Or.inl (Or.inl (Or.inl h.symm))
    · exact Or.inl (Or.inl (Or.inr h))
    · exact Or.inl (Or.inr h)
    · exact Or.inr h

theorem Handle.gatePresent_iff (gates : List PodSchedulingGate) :
    Handle.gatePresent gates = true ↔ ∃ g ∈ gates, g.Name = schedulingGateName := by
  induction gates with
  | nil => simp [Handle.gatePresent]
  | cons g gates ih =>
    unfold Handle.gatePresent
    by_cases h : g.Name = schedulingGateName
    · simp [h]
    · simp [h, ih]

theorem Handle.gatePresent_eq_false (gates : List PodSchedulingGate) :
    Handle.gatePresent gates = false ↔ ∀ g ∈ gates, g.Name ≠ schedulingGateName := by
  rw [← Bool.not_eq_true, Handle.gatePresent_iff]
  simp

theorem GoMap.get_set_self (m : GoMap) (k v : GoString) : (m.set k v).get k = some v := by
  induction m with
  | nil => simp [GoMap.set, GoMap.get]
  | cons e m ih =>
    unfold GoMap.set
    by_cases h : e.1 = k
    · simp [h, GoMap.get]
    · simp only [beq_iff_eq, h, if_false]
      simp only [GoMap.get, List.find?, beq_iff_eq] at ih ⊢
      have : (e.1 == k) = false := by simpa using h
      rw [this]
      exact ih

theorem GoMap.get_set_other (m : GoMap) (k v k' : GoString) (hk : k' ≠ k) :
    (m.set k v).get k' = m.get k' := by
  induction m with
  | nil =>
    have : (k == k') = false := by simpa using (Ne.symm hk)
    simp [GoMap.set, GoMap.get, List.find?, this]
  | cons e m ih =>
    unfold GoMap.set
    by_cases h : e.1 = k
    · have h1 : (k == k') = false := by simpa using (Ne.symm hk)
      have h2 : (e.1 == k') = false := by rw [h]; exact h1
      simp [h, GoMap.get, List.find?, h1]
    · simp only [beq_iff_eq, h, if_false]
      by_cases h3 : e.1 = k'
      · simp [GoMap.get, List.find?, h3]
      · have h4 : (e.1 == k') = false := by simpa using h3
        simp only [GoMap.get, List.find?, h4] at ih ⊢
        exact ih

theorem Handle.inject_of_exempt (u : Utils) (pod : Pod)
    (hex : Handle.exempt u pod.Namespace = true) : Handle.inject u pod = pod := by
  simp [Handle.inject, hex]

theorem Handle.inject_of_gated (u : Utils) (pod : Pod)
    (hg : ∃ g ∈ pod.Spec.SchedulingGates.getD [], g.Name = schedulingGateName) :
    Handle.inject u pod = pod := by
  unfold Handle.inject
  by_cases hex : Handle.exempt u pod.Namespace = true
  · simp [hex]
  · obtain ⟨name, ns, labels, ⟨gates, aff, srest⟩, rest⟩ := pod
    cases gates with
    | none => simp at hg
    | some gs =>
      have hp : Handle.gatePresent gs = true := (Handle.gatePresent_iff gs).2 (by simpa using hg)
      simp [hex, hp]

theorem Handle.inject_of_new (u : Utils) (pod : Pod)
    (hex : Handle.exempt u pod.Namespace = false)
    (hg : ∀ g ∈ pod.Spec.SchedulingGates.getD [], g.Name ≠ schedulingGateName) :
    Handle.inject u pod =
      { Name := pod.Name
        Namespace := pod.Namespace
        Labels := some (((pod.Labels.getD []).set u.SchedulingGateLabel
          SchedulingGateLabelValueGated).set u.NodeAffinityLabel NodeAffinityLabelValueUnset)
        Spec :=
          { SchedulingGates := some (pod.Spec.SchedulingGates.getD [] ++ [schedulingGate])
            Affinity := some (pod.Spec.Affinity.getD Affinity.empty)
            Rest := pod.Spec.Rest }
        Rest := pod.Rest } := by
  have hp := (Handle.gatePresent_eq_false _).2 hg
  obtain ⟨name, ns, labels, ⟨gates, aff, srest⟩, rest⟩ := pod
  unfold Handle.inject
  cases gates <;> cases aff <;> cases labels <;> simp_all

theorem gateCount_append_gate (gs : List PodSchedulingGate)
    (hg : ∀ g ∈ gs, g.Name ≠ schedulingGateName) :
    ((gs ++ [schedulingGate]).filter (fun g => g.Name == schedulingGateName)).length = 1 := by
  have hnone : gs.filter (fun g => g.Name == schedulingGateName) = [] := by
    rw [List.filter_eq_nil_iff]
    intro g hmem
    simpa using hg g hmem
  simp [List.filter_append, hnone, schedulingGate]

theorem Handle.response_of_decoded (c : Codec) (u : Utils) (a : PodSchedulingGateMutatingWebHook)
    (req : Request) (pod : Pod)
    (hdec : c.Decode (a.decoder.getD (NewDecoder a.Scheme)) req = .ok pod) :
    (Handle c u a req).1 = (patchedPodResponse c (Handle.inject u pod) req).1 := by
  simp [Handle, hdec]

/-! ## The pod `Handle` serialises

By `Handle.response_of_decoded`, the pod `Handle` passes to `patchedPodResponse` for a
request that decodes to `pod` is `Handle.inject u pod`. -/

/-- C1: for every pod whose namespace is not exempt and whose gate sequence has no entry
named `multiarch.openshift.io/scheduling-gate`, the pod `Handle` serialises has exactly one
gate entry of that name, carries the gated label with value "gated" and the node-affinity
label with value "unset" (the two label keys being two different keys), and has a non-nil
affinity. -/
theorem Handle_new_pod_is_gated (u : Utils) (pod : Pod)
    (hkeys : u.SchedulingGateLabel ≠ u.NodeAffinityLabel)
    (hex : Handle.exempt u pod.Namespace = false)
    (hg : ∀ g ∈ pod.Spec.SchedulingGates.getD [], g.Name ≠ schedulingGateName) :
    gateCount (Handle.inject u pod) = 1 ∧
      (∃ gates, (Handle.inject u pod).Spec.SchedulingGates = some gates ∧
        schedulingGate ∈ gates) ∧
      (∃ labels, (Handle.inject u pod).Labels = some labels ∧
        labels.get u.SchedulingGateLabel = some (go "gated") ∧
        labels.get u.NodeAffinityLabel = some (go "unset")) ∧
      (Handle.inject u pod).Spec.Affinity ≠ none := by
  rw [Handle.inject_of_new u pod hex hg]
  refine ⟨?_, ⟨_, rfl, by simp⟩, ⟨_, rfl, ?_, ?_⟩, by simp⟩
  · simpa [gateCount] using gateCount_append_gate _ hg
  · rw [GoMap.get_set_other _ _ _ _ hkeys, GoMap.get_set_self]
    rfl
  · rw [GoMap.get_set_self]
    rfl

/-- C1 at the pod of scenario A: namespace `default`, no gates, no labels, no affinity. The
output has the gate list `[multiarch.openshift.io/scheduling-gate]`, exactly the two
labels, and the empty affinity. -/
theorem Handle_new_pod_is_gated_witness :
    Handle.inject exampleUtils (examplePod (go "default") none none none) =
        examplePod (go "default") (some [schedulingGate])
          (some [(exampleUtils.SchedulingGateLabel, go "gated"),
            (exampleUtils.NodeAffinityLabel, go "unset")])
          (some Affinity.empty) ∧
      gateCount (Handle.inject exampleUtils (examplePod (go "default") none none none)) = 1 ∧
      (Handle.inject exampleUtils (examplePod (go "default") none none none)).Spec.Affinity
        ≠ none :=
  have h := Handle_new_pod_is_gated exampleUtils (examplePod (go "default") none none none)
    (by decide) (by decide) (by decide)
  ⟨by decide, h.1, h.2.2.2⟩

/-- C2: for every pod whose namespace is exempt (the operator namespace, or one that
starts with `openshift-`, `hypershift-` or `kube-`), the pod `Handle` serialises is the
decoded pod itself, whatever its gates, labels and affinity. -/
theorem Handle_exempt_pod_unchanged (u : Utils) (pod : Pod)
    (hns : pod.Namespace = u.Namespace ∨ (∃ rest, pod.Namespace = go "openshift-" ++ rest) ∨
      (∃ rest, pod.Namespace = go "hypershift-" ++ rest) ∨
      (∃ rest, pod.Namespace = go "kube-" ++ rest)) :
    Handle.inject u pod = pod :=
  Handle.inject_of_exempt u pod ((Handle.exempt_iff u pod.Namespace).2 hns)

/-- C2 at the pod of scenario B, in namespace `openshift-machine-config-operator`. -/
theorem Handle_exempt_pod_unchanged_witness :
    Handle.inject exampleUtils
        (examplePod (go "openshift-machine-config-operator") none none none) =
      examplePod (go "openshift-machine-config-operator") none none none :=
  Handle_exempt_pod_unchanged exampleUtils _
    (Or.inr (Or.inl ⟨go "machine-config-operator", by decide⟩))

/-- C3: for every pod whose gate sequence already has an entry named
`multiarch.openshift.io/scheduling-gate`, at any position, the pod `Handle` serialises is
the input pod: the labels are left as they are (missing or stale labels are not repaired)
and so is the affinity (nil stays nil). -/
theorem Handle_gated_pod_unchanged (u : Utils) (pod : Pod)
    (hg : ∃ g ∈ pod.Spec.SchedulingGates.getD [], g.Name = schedulingGateName) :
    Handle.inject u pod = pod ∧ (Handle.inject u pod).Labels = pod.Labels ∧
      (Handle.inject u pod).Spec.Affinity = pod.Spec.Affinity := by
  rw [Handle.inject_of_gated u pod hg]
  exact ⟨rfl, rfl, rfl⟩

/-- C3 at the pod of scenario C: namespace `default`, the gate present, no labels, no
affinity. -/
theorem Handle_gated_pod_unchanged_witness :
    Handle.inject exampleUtils (examplePod (go "default") (some [schedulingGate]) none none) =
        examplePod (go "default") (some [schedulingGate]) none none ∧
      (Handle.inject exampleUtils
        (examplePod (go "default") (some [schedulingGate]) none none)).Labels = none ∧
      (Handle.inject exampleUtils
        (examplePod (go "default") (some [schedulingGate]) none none)).Spec.Affinity = none :=
  Handle_gated_pod_unchanged exampleUtils
    (examplePod (go "default") (some [schedulingGate]) none none)
    ⟨schedulingGate, by decide, rfl⟩

/-- C4: the pod transformation of `Handle` is idempotent: applied to its own output it
gives the same pod as applied once, for every pod. -/
theorem Handle_inject_idempotent (u : Utils) (pod : Pod) :
    Handle.inject u (Handle.inject u pod) = Handle.inject u pod := by
  by_cases hex : Handle.exempt u pod.Namespace = true
  · rw [Handle.inject_of_exempt u pod hex, Handle.inject_of_exempt u pod hex]
  · by_cases hg : ∃ g ∈ pod.Spec.SchedulingGates.getD [], g.Name = schedulingGateName
    · rw [Handle.inject_of_gated u pod hg, Handle.inject_of_gated u pod hg]
    · have hg2 : ∀ g ∈ pod.Spec.SchedulingGates.getD [], g.Name ≠ schedulingGateName := by
        intro g hmem hname
        exact hg ⟨g, hmem, hname⟩
      rw [Handle.inject_of_new u pod (by simpa using hex) hg2]
      apply Handle.inject_of_gated
      exact ⟨schedulingGate, by simp, rfl⟩

/-- C5: the exemption test of `Handle` holds for a namespace exactly when it is the
operator namespace or starts with `openshift-`, `hypershift-` or `kube-`; it fails for
`default`, `openshift`, `kubernetes` and `Openshift-x` unless they are the operator
namespace, and a pod of a namespace that fails it comes out carrying the gate. -/
theorem Handle_exempt_exactly (u : Utils) :
    (∀ ns, Handle.exempt u ns = true ↔
      (ns = u.Namespace ∨ (∃ rest, ns = go "openshift-" ++ rest) ∨
        (∃ rest, ns = go "hypershift-" ++ rest) ∨ (∃ rest, ns = go "kube-" ++ rest))) ∧
    (∀ ns ∈ [go "default", go "openshift", go "kubernetes", go "Openshift-x", go "kube"],
      ns ≠ u.Namespace → Handle.exempt u ns = false) ∧
    (∀ pod, Handle.exempt u pod.Namespace = false →
      ∃ g ∈ (Handle.inject u pod).Spec.SchedulingGates.getD [],
        g.Name = schedulingGateName) := by
  refine ⟨Handle.exempt_iff u, ?_, ?_⟩
  · intro ns hmem hne
    have hne2 : (u.Namespace == ns) = false := by simpa using (Ne.symm hne)
    simp only [List.mem_cons, List.mem_singleton, List.not_mem_nil, or_false] at hmem
    unfold Handle.exempt
    rw [hne2]
    rcases hmem with h | h | h | h | h <;> subst h <;> decide
  · intro pod hex
    by_cases hg : ∃ g ∈ pod.Spec.SchedulingGates.getD [], g.Name = schedulingGateName
    · rw [Handle.inject_of_gated u pod hg]
      exact hg
    · have hg2 : ∀ g ∈ pod.Spec.SchedulingGates.getD [], g.Name ≠ schedulingGateName := by
        intro g hmem hname
        exact hg ⟨g, hmem, hname⟩
      rw [Handle.inject_of_new u pod hex hg2]
      exact ⟨schedulingGate, by simp, rfl⟩

/-- C6, as the code has it: for every input pod whose gate sequence has at most one entry
named `multiarch.openshift.io/scheduling-gate`, the gate sequence of the pod `Handle`
serialises has at most one such entry. -/
theorem Handle_gate_at_most_once (u : Utils) (pod : Pod) (hin : gateCount pod ≤ 1) :
    gateCount (Handle.inject u pod) ≤ 1 := by
  by_cases hex : Handle.exempt u pod.Namespace = true
  · rw [Handle.inject_of_exempt u pod hex]
    exact hin
  · by_cases hg : ∃ g ∈ pod.Spec.SchedulingGates.getD [], g.Name = schedulingGateName
    · rw [Handle.inject_of_gated u pod hg]
      exact hin
    · have hg2 : ∀ g ∈ pod.Spec.SchedulingGates.getD [], g.Name ≠ schedulingGateName := by
        intro g hmem hname
        exact hg ⟨g, hmem, hname⟩
      rw [Handle.inject_of_new u pod (by simpa using hex) hg2]
      have hone := gateCount_append_gate _ hg2
      simp only [gateCount, Option.getD_some]
      exact Nat.le_of_eq hone

/-- C6, as the code has it, at a pod of namespace `default` with one other gate: the input
has no entry of the name and the output has one. -/
theorem Handle_gate_at_most_once_witness :
    gateCount (examplePod (go "default") (some [⟨go "example.com/other"⟩]) none none) ≤ 1 ∧
      gateCount (Handle.inject exampleUtils
        (examplePod (go "default") (some [⟨go "example.com/other"⟩]) none none)) ≤ 1 :=
  ⟨by decide, Handle_gate_at_most_once exampleUtils _ (by decide)⟩

/-- C6 as stated fails: a pod of namespace `default` that arrives with the gate entry
twice is returned as it is, so the output has the entry twice. -/
theorem Handle_gate_twice_counterexample :
    gateCount (Handle.inject exampleUtils
        (examplePod (go "default") (some [schedulingGate, schedulingGate]) none none)) = 2 ∧
      ¬ gateCount (Handle.inject exampleUtils
        (examplePod (go "default") (some [schedulingGate, schedulingGate]) none none)) ≤ 1 := by
  decide

/-- C7, as the code has it: for every pod whose namespace is not exempt and that either
has no gate entry named `multiarch.openshift.io/scheduling-gate` or already has an
affinity, the pod `Handle` serialises has a non-nil affinity. -/
theorem Handle_affinity_set (u : Utils) (pod : Pod)
    (hex : Handle.exempt u pod.Namespace = false)
    (h : (∀ g ∈ pod.Spec.SchedulingGates.getD [], g.Name ≠ schedulingGateName) ∨
      pod.Spec.Affinity ≠ none) :
    (Handle.inject u pod).Spec.Affinity ≠ none := by
  by_cases hg : ∃ g ∈ pod.Spec.SchedulingGates.getD [], g.Name = schedulingGateName
  · rw [Handle.inject_of_gated u pod hg]
    rcases h with h | h
    · obtain ⟨g, hmem, hname⟩ := hg
      exact absurd hname (h g hmem)
    · exact h
  · have hg2 : ∀ g ∈ pod.Spec.SchedulingGates.getD [], g.Name ≠ schedulingGateName := by
      intro g hmem hname
      exact hg ⟨g, hmem, hname⟩
    rw [Handle.inject_of_new u pod hex hg2]
    simp

/-- C7, as the code has it, at a pod of namespace `default` with no gates and no affinity:
the output has the empty affinity. -/
theorem Handle_affinity_set_witness :
    Handle.exempt exampleUtils (examplePod (go "default") none none none).Namespace = false ∧
      (Handle.inject exampleUtils (examplePod (go "default") none none none)).Spec.Affinity
        ≠ none :=
  ⟨by decide, Handle_affinity_set exampleUtils (examplePod (go "default") none none none)
    (by decide) (Or.inl (by decide))⟩

/-- C7 as stated fails: a pod of the non-exempt namespace `default` that already carries
the gate and has a nil affinity is returned as it is, with its nil affinity. -/
theorem Handle_affinity_nil_counterexample :
    Handle.exempt exampleUtils
        (examplePod (go "default") (some [schedulingGate]) none none).Namespace = false ∧
      (Handle.inject exampleUtils
        (examplePod (go "default") (some [schedulingGate]) none none)).Spec.Affinity = none := by
  decide

/-! ## The responses -/

/-- C8: `Handle` answers with the error response of status 400 carrying an error exactly
when decoding the request fails with that error; that response carries no patch and is not
what `PatchResponseFromRaw` answers on any buffers, and it is the same whatever the
configuration of the exemption and label steps, the serialiser and the patch computation
are, none of which is reached. -/
theorem Handle_bad_request_iff (c : Codec) (u : Utils) (a : PodSchedulingGateMutatingWebHook)
    (req : Request) (err : GoError) :
    ((Handle c u a req).1 = Response.Errored 400 err ↔
      c.Decode (a.decoder.getD (NewDecoder a.Scheme)) req = .error err) ∧
    (c.Decode (a.decoder.getD (NewDecoder a.Scheme)) req = .error err →
      (∀ original current,
        (Handle c u a req).1 ≠ PatchResponseFromRaw c original current) ∧
      (∀ patches, (Handle c u a req).1 ≠ Response.Patched patches) ∧
      ∀ (u2 : Utils) (marshal : Pod → Except GoError GoBytes)
        (createPatch : GoBytes → GoBytes → Except GoError (List JsonPatchOperation)),
        (Handle ⟨c.Decode, marshal, createPatch⟩ u2 a req).1 = Response.Errored 400 err) := by
  constructor
  · cases hd : c.Decode (a.decoder.getD (NewDecoder a.Scheme)) req with
    | error e => simp [Handle, hd, StatusBadRequest]
    | ok pod =>
      cases hm : c.Marshal (Handle.inject u pod) with
      | error e => simp [Handle, hd, patchedPodResponse, hm, StatusInternalServerError]
      | ok current =>
        cases hp : c.CreatePatch req.Object.Raw current <;>
          simp [Handle, hd, patchedPodResponse, hm, PatchResponseFromRaw, hp,
            StatusInternalServerError]
  · intro hd
    refine ⟨?_, ?_, ?_⟩
    · intro original current
      cases hp : c.CreatePatch original current <;>
        simp [Handle, hd, PatchResponseFromRaw, hp, StatusBadRequest,
          StatusInternalServerError]
    · intro patches
      simp [Handle, hd]
    · intro u2 marshal createPatch
      simp [Handle, hd, StatusBadRequest]

/-- C8 at scenario D: the example codec does not decode an empty raw object, and `Handle`
answers with status 400 and the decode error. -/
theorem Handle_bad_request_iff_witness :
    (Handle exampleCodec exampleUtils ⟨none, ⟨[]⟩⟩ ⟨⟨[]⟩⟩).1 =
      Response.Errored 400 (go "EOF") :=
  (Handle_bad_request_iff exampleCodec exampleUtils ⟨none, ⟨[]⟩⟩ ⟨⟨[]⟩⟩ (go "EOF")).1.2 rfl

/-- C9, as the code has it: `patchedPodResponse` answers with the error response of
status 500 carrying the error when serialising the pod fails, and otherwise with what
`PatchResponseFromRaw` answers on the raw bytes of the request and the serialised pod: the
response carrying the patch computed from the one to the other, or the error response of
status 500 carrying the error of the patch computation. So it answers 500 with an error
exactly when serialising fails with it or serialising succeeds and the patch computation
fails with it; the pod and the request are the same after the call as before. -/
theorem patchedPodResponse_cases (c : Codec) (pod : Pod) (req : Request) :
    (∀ err, c.Marshal pod = .error err →
      (patchedPodResponse c pod req).1 = Response.Errored 500 err) ∧
    (∀ current, c.Marshal pod = .ok current →
      (patchedPodResponse c pod req).1 = PatchResponseFromRaw c req.Object.Raw current) ∧
    (∀ current patches, c.Marshal pod = .ok current →
      c.CreatePatch req.Object.Raw current = .ok patches →
      (patchedPodResponse c pod req).1 = Response.Patched patches) ∧
    (∀ code err, (patchedPodResponse c pod req).1 = Response.Errored code err ↔
      code = 500 ∧ (c.Marshal pod = .error err ∨
        ∃ current, c.Marshal pod = .ok current ∧
          c.CreatePatch req.Object.Raw current = .error err)) ∧
    (patchedPodResponse c pod req).2 = (pod, req) := by
  cases hm : c.Marshal pod with
  | error e =>
    simp [patchedPodResponse, hm, StatusInternalServerError]
    intro code
    exact eq_comm
  | ok bytes =>
    cases hp : c.CreatePatch req.Object.Raw bytes with
    | error e =>
      simp [patchedPodResponse, hm, PatchResponseFromRaw, hp, StatusInternalServerError]
      refine ⟨?_, fun code => eq_comm⟩
      intro current patches hcur hpatch
      subst hcur
      rw [hp] at hpatch
      cases hpatch
    | ok patches =>
      simp [patchedPodResponse, hm, PatchResponseFromRaw, hp]
      intro current patches2 hcur hpatch
      subst hcur
      rw [hp] at hpatch
      cases hpatch
      rfl

/-- C9, as the code has it, at the example codec: with the JSON text of a pod as raw
object, the pod of namespace `default` serialises, the patch is computed, and the response
carries it. -/
theorem patchedPodResponse_cases_witness :
    ∃ patches, (patchedPodResponse exampleCodec (examplePod (go "default") none none none)
        ⟨⟨exampleJSON (go "default")⟩⟩).1 = Response.Patched patches :=
  ⟨_, (patchedPodResponse_cases exampleCodec (examplePod (go "default") none none none)
    ⟨⟨exampleJSON (go "default")⟩⟩).2.2.1 _ _ rfl rfl⟩

/-- C9 as stated fails: with the raw object `raw`, which is no JSON document, serialising
the pod succeeds and `patchedPodResponse` still answers with status 500, carrying the
error of the patch computation. -/
theorem patchedPodResponse_patch_error_counterexample :
    exampleCodec.Marshal (examplePod (go "default") none none none) =
        .ok (exampleMarshal (examplePod (go "default") none none none)) ∧
      (patchedPodResponse exampleCodec (examplePod (go "default") none none none)
        ⟨⟨go "raw"⟩⟩).1 = Response.Errored 500 (go "invalid JSON Document") :=
  ⟨rfl, by decide⟩

/-! ## The fake inspector -/

theorem go_slashes : go "//" = [47, 47] := by decide

theorem mockLookup_of_not_mock (r : GoString)
    (hr : r ∉ [SingleArchAmd64Image, SingleArchArm64Image, MultiArchImage, MultiArchImage2]) :
    mockLookup MockImagesArchitectureMap r = none := by
  simp only [List.mem_cons, List.mem_singleton, List.not_mem_nil, or_false, not_or] at hr
  obtain ⟨h1, h2, h3, h4⟩ := hr
  have e1 : (SingleArchAmd64Image == r) = false := by simpa using (Ne.symm h1)
  have e2 : (SingleArchArm64Image == r) = false := by simpa using (Ne.symm h2)
  have e3 : (MultiArchImage == r) = false := by simpa using (Ne.symm h3)
  have e4 : (MultiArchImage2 == r) = false := by simpa using (Ne.symm h4)
  simp [mockLookup, MockImagesArchitectureMap, List.find?, e1, e2, e3, e4]

theorem GetCompatibleArchitecturesSet_slashes (i : registryInspector) (ctx : Context)
    (r : GoString) (secrets : List GoBytes) :
    GetCompatibleArchitecturesSet i ctx (go "//" ++ r) secrets =
      match mockLookup MockImagesArchitectureMap r with
      | some archSet => .returned (some archSet, none)
      | none => .returned (none, some (go "image not found")) := by
  simp [GetCompatibleArchitecturesSet, go_slashes]

/-- C10: for every image reference `//` followed by `r`, the fake
`GetCompatibleArchitecturesSet` returns the set the mock map holds under `r` and a nil
error when `r` is one of the four mock references (`{amd64}`, `{arm64}`, `{amd64, arm64}`,
`{amd64, arm64, ppc64le, s390x}`), returns a nil set and the error `image not found` for
every other `r`, and gives the same result for every receiver, context and pull secrets. -/
theorem GetCompatibleArchitecturesSet_mock (i : registryInspector) (ctx : Context)
    (r : GoString) (secrets : List GoBytes) :
    (r = SingleArchAmd64Image →
      GetCompatibleArchitecturesSet i ctx (go "//" ++ r) secrets =
        .returned (some {go "amd64"}, none)) ∧
    (r = SingleArchArm64Image →
      GetCompatibleArchitecturesSet i ctx (go "//" ++ r) secrets =
        .returned (some {go "arm64"}, none)) ∧
    (r = MultiArchImage →
      GetCompatibleArchitecturesSet i ctx (go "//" ++ r) secrets =
        .returned (some {go "amd64", go "arm64"}, none)) ∧
    (r = MultiArchImage2 →
      GetCompatibleArchitecturesSet i ctx (go "//" ++ r) secrets =
        .returned (some {go "amd64", go "arm64", go "ppc64le", go "s390x"}, none)) ∧
    (r ∈ [SingleArchAmd64Image, SingleArchArm64Image, MultiArchImage, MultiArchImage2] →
      ∃ archSet, mockLookup MockImagesArchitectureMap r = some archSet ∧
        GetCompatibleArchitecturesSet i ctx (go "//" ++ r) secrets =
          .returned (some archSet, none)) ∧
    (r ∉ [SingleArchAmd64Image, SingleArchArm64Image, MultiArchImage, MultiArchImage2] →
      GetCompatibleArchitecturesSet i ctx (go "//" ++ r) secrets =
        .returned (none, some (go "image not found"))) ∧
    (∀ (i2 : registryInspector) (ctx2 : Context) (secrets2 : List GoBytes),
      GetCompatibleArchitecturesSet i2 ctx2 (go "//" ++ r) secrets2 =
        GetCompatibleArchitecturesSet i ctx (go "//" ++ r) secrets) := by
  have h1 : mockLookup MockImagesArchitectureMap SingleArchAmd64Image =
      some {go "amd64"} := by decide
  have h2 : mockLookup MockImagesArchitectureMap SingleArchArm64Image =
      some {go "arm64"} := by decide
  have h3 : mockLookup MockImagesArchitectureMap MultiArchImage =
      some {go "amd64", go "arm64"} := by decide
  have h4 : mockLookup MockImagesArchitectureMap MultiArchImage2 =
      some {go "amd64", go "arm64", go "ppc64le", go "s390x"} := by decide
  refine ⟨?_, ?_, ?_, ?_, ?_, ?_, ?_⟩
  · rintro rfl
    rw [GetCompatibleArchitecturesSet_slashes, h1]
  · rintro rfl
    rw [GetCompatibleArchitecturesSet_slashes, h2]
  · rintro rfl
    rw [GetCompatibleArchitecturesSet_slashes, h3]
  · rintro rfl
    rw [GetCompatibleArchitecturesSet_slashes, h4]
  · intro hmem
    simp only [List.mem_cons, List.mem_singleton, List.not_mem_nil, or_false] at hmem
    rcases hmem with h | h | h | h <;> subst h
    · exact ⟨_, h1, by rw [GetCompatibleArchitecturesSet_slashes, h1]⟩
    · exact ⟨_, h2, by rw [GetCompatibleArchitecturesSet_slashes, h2]⟩
    · exact ⟨_, h3, by rw [GetCompatibleArchitecturesSet_slashes, h3]⟩
    · exact ⟨_, h4, by rw [GetCompatibleArchitecturesSet_slashes, h4]⟩
  · intro hr
    rw [GetCompatibleArchitecturesSet_slashes, mockLookup_of_not_mock r hr]
  · intro i2 ctx2 secrets2
    rw [GetCompatibleArchitecturesSet_slashes, GetCompatibleArchitecturesSet_slashes]

/-- C10 at the reference `//my-registry.io/library/multi-arch-image:latest`, which gives
`{amd64, arm64}`, and at `//quay.io/example/unknown:latest`, which gives the error. -/
theorem GetCompatibleArchitecturesSet_mock_witness :
    GetCompatibleArchitecturesSet ⟨[]⟩ ⟨[]⟩
        (go "//my-registry.io/library/multi-arch-image:latest") [] =
        .returned (some {go "amd64", go "arm64"}, none) ∧
      GetCompatibleArchitecturesSet ⟨[]⟩ ⟨[]⟩ (go "//quay.io/example/unknown:latest") [] =
        .returned (none, some (go "image not found")) :=
  ⟨(GetCompatibleArchitecturesSet_mock ⟨[]⟩ ⟨[]⟩ MultiArchImage []).2.2.1 rfl,
    (GetCompatibleArchitecturesSet_mock ⟨[]⟩ ⟨[]⟩ (go "quay.io/example/unknown:latest")
      []).2.2.2.2.2.1 (by decide)⟩

/-! ## The patch of the response -/

/-- C11, as the code has it: for every request that decodes to a pod of an exempt
namespace, the pod `Handle` serialises is the decoded pod itself and `Handle` answers as
`patchedPodResponse` does on it: with status 500 when serialising fails, and otherwise
with what `PatchResponseFromRaw` answers on the raw object of the request and the
serialisation of the decoded pod, which is the raw object itself only when serialising
gives it back. -/
theorem Handle_exempt_response (c : Codec) (u : Utils) (a : PodSchedulingGateMutatingWebHook)
    (req : Request) (pod : Pod)
    (hdec : c.Decode (a.decoder.getD (NewDecoder a.Scheme)) req = .ok pod)
    (hns : pod.Namespace = u.Namespace ∨ (∃ rest, pod.Namespace = go "openshift-" ++ rest) ∨
      (∃ rest, pod.Namespace = go "hypershift-" ++ rest) ∨
      (∃ rest, pod.Namespace = go "kube-" ++ rest)) :
    Handle.inject u pod = pod ∧
    (Handle c u a req).1 = (patchedPodResponse c pod req).1 ∧
    (∀ err, c.Marshal pod = .error err → (Handle c u a req).1 = Response.Errored 500 err) ∧
    (∀ current, c.Marshal pod = .ok current →
      (Handle c u a req).1 = PatchResponseFromRaw c req.Object.Raw current) ∧
    (c.Marshal pod = .ok req.Object.Raw →
      (Handle c u a req).1 = PatchResponseFromRaw c req.Object.Raw req.Object.Raw) := by
  have hinj : Handle.inject u pod = pod :=
    Handle.inject_of_exempt u pod ((Handle.exempt_iff u pod.Namespace).2 hns)
  have hresp := Handle.response_of_decoded c u a req pod hdec
  rw [hinj] at hresp
  refine ⟨hinj, hresp, ?_, ?_, ?_⟩
  · intro err hm
    rw [hresp]
    simp [patchedPodResponse, hm, StatusInternalServerError]
  · intro current hm
    rw [hresp]
    simp [patchedPodResponse, hm]
  · intro hm
    rw [hresp]
    simp [patchedPodResponse, hm]

/-- C11, as the code has it, at the JSON text of a pod of namespace `kube-system`: the
response is what `PatchResponseFromRaw` answers on that text and the serialisation of the
decoded pod. -/
theorem Handle_exempt_response_witness :
    (Handle exampleCodec exampleUtils ⟨none, ⟨[]⟩⟩ ⟨⟨exampleJSON (go "kube-system")⟩⟩).1 =
      PatchResponseFromRaw exampleCodec (exampleJSON (go "kube-system"))
        (exampleMarshal (examplePod (go "kube-system") none none none)) :=
  (Handle_exempt_response exampleCodec exampleUtils ⟨none, ⟨[]⟩⟩
    ⟨⟨exampleJSON (go "kube-system")⟩⟩ (examplePod (go "kube-system") none none none) rfl
    (Or.inr (Or.inr (Or.inr ⟨go "system", by decide⟩)))).2.2.2.1 _ rfl

/-- C11 as stated fails: the JSON text of a pod of the exempt namespace `kube-system`, as
a client writes it, decodes, and the serialised pod that is diffed against it is not that
text byte for byte (the serialiser writes the kind first and adds the fields it always
writes), although the pod is unchanged. -/
theorem Handle_exempt_bytes_counterexample :
    exampleCodec.Decode (NewDecoder ⟨[]⟩) ⟨⟨exampleJSON (go "kube-system")⟩⟩ =
        .ok (examplePod (go "kube-system") none none none) ∧
      Handle.exempt exampleUtils (go "kube-system") = true ∧
      Handle.inject exampleUtils (examplePod (go "kube-system") none none none) =
        examplePod (go "kube-system") none none none ∧
      exampleCodec.Marshal (examplePod (go "kube-system") none none none) =
        .ok (exampleMarshal (examplePod (go "kube-system") none none none)) ∧
      exampleMarshal (examplePod (go "kube-system") none none none) ≠
        exampleJSON (go "kube-system") :=
  ⟨rfl, by decide, by decide, rfl, by decide⟩

/-- C12, as the code has it: for every request that decodes to a pod and whose mutated
pod serialises, `Handle` answers with what `PatchResponseFromRaw` answers on the raw
object of the request and the serialised mutated pod: the response carrying exactly the
patch computed from the raw object to the serialised mutated pod when the patch
computation succeeds, and the error response of status 500, without a patch, when it
fails. -/
theorem Handle_patch_of_raw (c : Codec) (u : Utils) (a : PodSchedulingGateMutatingWebHook)
    (req : Request) (pod : Pod) (current : GoBytes)
    (hdec : c.Decode (a.decoder.getD (NewDecoder a.Scheme)) req = .ok pod)
    (hm : c.Marshal (Handle.inject u pod) = .ok current) :
    (Handle c u a req).1 = PatchResponseFromRaw c req.Object.Raw current ∧
    (∀ patches, c.CreatePatch req.Object.Raw current = .ok patches →
      (Handle c u a req).1 = Response.Patched patches) ∧
    (∀ err, c.CreatePatch req.Object.Raw current = .error err →
      (Handle c u a req).1 = Response.Errored 500 err) := by
  rw [Handle.response_of_decoded c u a req pod hdec]
  refine ⟨?_, ?_, ?_⟩
  · simp [patchedPodResponse, hm]
  · intro patches hp
    simp [patchedPodResponse, hm, PatchResponseFromRaw, hp]
  · intro err hp
    simp [patchedPodResponse, hm, PatchResponseFromRaw, hp, StatusInternalServerError]

/-- C12, as the code has it, at the JSON text of a pod of namespace `default`: the
response carries the patch computed from that text to the serialised gated pod. -/
theorem Handle_patch_of_raw_witness :
    ∃ patches,
      exampleCodec.CreatePatch (exampleJSON (go "default")) (exampleMarshal
        (Handle.inject exampleUtils (examplePod (go "default") none none none))) =
          .ok patches ∧
      (Handle exampleCodec exampleUtils ⟨none, ⟨[]⟩⟩ ⟨⟨exampleJSON (go "default")⟩⟩).1 =
        Response.Patched patches :=
  ⟨_, rfl, (Handle_patch_of_raw exampleCodec exampleUtils ⟨none, ⟨[]⟩⟩
    ⟨⟨exampleJSON (go "default")⟩⟩ (examplePod (go "default") none none none) _ rfl rfl).2.1
    _ rfl⟩

/-- C12 as stated fails: the YAML text of a pod of namespace `default` decodes and the
gated pod serialises, but the text is no JSON document, so the patch computation fails
and `Handle` answers with status 500: the response carries no patch to apply. -/
theorem Handle_no_patch_counterexample :
    exampleCodec.Decode (NewDecoder ⟨[]⟩) ⟨⟨exampleYAML (go "default")⟩⟩ =
        .ok (examplePod (go "default") none none none) ∧
      exampleCodec.Marshal
          (Handle.inject exampleUtils (examplePod (go "default") none none none)) =
        .ok (exampleMarshal
          (Handle.inject exampleUtils (examplePod (go "default") none none none))) ∧
      (Handle exampleCodec exampleUtils ⟨none, ⟨[]⟩⟩ ⟨⟨exampleYAML (go "default")⟩⟩).1 =
        Response.Errored 500 (go "invalid JSON Document") ∧
      ∀ patches,
        (Handle exampleCodec exampleUtils ⟨none, ⟨[]⟩⟩ ⟨⟨exampleYAML (go "default")⟩⟩).1 ≠
          Response.Patched patches := by
  have h : (Handle exampleCodec exampleUtils ⟨none, ⟨[]⟩⟩
      ⟨⟨exampleYAML (go "default")⟩⟩).1 =
      Response.Errored 500 (go "invalid JSON Document") := by decide
  refine ⟨rfl, rfl, h, ?_⟩
  intro patches
  rw [h]
  simp

/-! ## The three steps on a new pod -/

/-- C13: for every pod whose namespace is not exempt and whose gate sequence has no entry
named `multiarch.openshift.io/scheduling-gate`, the gate sequence of the pod `Handle`
serialises is the input sequence (empty when nil) followed by the one entry of that name:
the earlier gates are kept in their order and the new entry is last. -/
theorem Handle_gate_appended (u : Utils) (pod : Pod)
    (hex : Handle.exempt u pod.Namespace = false)
    (hg : ∀ g ∈ pod.Spec.SchedulingGates.getD [], g.Name ≠ schedulingGateName) :
    (Handle.inject u pod).Spec.SchedulingGates =
        some (pod.Spec.SchedulingGates.getD [] ++
          [⟨go "multiarch.openshift.io/scheduling-gate"⟩]) ∧
      ((Handle.inject u pod).Spec.SchedulingGates.getD []).getLast? =
        some ⟨go "multiarch.openshift.io/scheduling-gate"⟩ ∧
      ((Handle.inject u pod).Spec.SchedulingGates.getD []).dropLast =
        pod.Spec.SchedulingGates.getD [] := by
  rw [Handle.inject_of_new u pod hex hg]
  simp [schedulingGate, schedulingGateName]

/-- C13 at a pod of namespace `default` with two gates of other names: both are kept in
order and the new entry comes last. -/
theorem Handle_gate_appended_witness :
    (Handle.inject exampleUtils (examplePod (go "default")
        (some [⟨go "example.com/a"⟩, ⟨go "example.com/b"⟩]) none none)).Spec.SchedulingGates =
      some [⟨go "example.com/a"⟩, ⟨go "example.com/b"⟩,
        ⟨go "multiarch.openshift.io/scheduling-gate"⟩] :=
  (Handle_gate_appended exampleUtils (examplePod (go "default")
    (some [⟨go "example.com/a"⟩, ⟨go "example.com/b"⟩]) none none)
    (by decide) (by decide)).1

/-- C14: for every pod whose namespace is not exempt and whose gate sequence has no entry
named `multiarch.openshift.io/scheduling-gate`, the label map of the pod `Handle`
serialises is the input map (empty when nil) with the gated label written as "gated" and
then the node-affinity label written as "unset": both keys hold these values (the two
keys being two different keys), and every other key reads as in the input, be it present
or absent. -/
theorem Handle_labels_written (u : Utils) (pod : Pod)
    (hkeys : u.SchedulingGateLabel ≠ u.NodeAffinityLabel)
    (hex : Handle.exempt u pod.Namespace = false)
    (hg : ∀ g ∈ pod.Spec.SchedulingGates.getD [], g.Name ≠ schedulingGateName) :
    ∃ labels, (Handle.inject u pod).Labels = some labels ∧
      labels = ((pod.Labels.getD []).set u.SchedulingGateLabel (go "gated")).set
        u.NodeAffinityLabel (go "unset") ∧
      labels.get u.SchedulingGateLabel = some (go "gated") ∧
      labels.get u.NodeAffinityLabel = some (go "unset") ∧
      ∀ k, k ≠ u.SchedulingGateLabel → k ≠ u.NodeAffinityLabel →
        labels.get k = (pod.Labels.getD []).get k := by
  rw [Handle.inject_of_new u pod hex hg]
  refine ⟨_, rfl, rfl, ?_, ?_, ?_⟩
  · rw [GoMap.get_set_other _ _ _ _ hkeys, GoMap.get_set_self]
    rfl
  · rw [GoMap.get_set_self]
    rfl
  · intro k hk1 hk2
    rw [GoMap.get_set_other _ _ _ _ hk2, GoMap.get_set_other _ _ _ _ hk1]

/-- C14 at a pod of namespace `default` with a stale gated label and a label `app`: the
stale value is overwritten, `app` keeps its value, and the node-affinity label is added. -/
theorem Handle_labels_written_witness :
    (Handle.inject exampleUtils (examplePod (go "default") none
        (some [(go "app", go "web"), (exampleUtils.SchedulingGateLabel, go "removed")])
        none)).Labels =
      some [(go "app", go "web"), (exampleUtils.SchedulingGateLabel, go "gated"),
        (exampleUtils.NodeAffinityLabel, go "unset")] := by
  obtain ⟨labels, hlabels, heq, _⟩ := Handle_labels_written exampleUtils
    (examplePod (go "default") none
      (some [(go "app", go "web"), (exampleUtils.SchedulingGateLabel, go "removed")]) none)
    (by decide) (by decide) (by decide)
  rw [hlabels, heq]
  decide

/-- C15: for every pod whose namespace is not exempt and whose gate sequence has no entry
named `multiarch.openshift.io/scheduling-gate`, the affinity of the pod `Handle`
serialises is the empty affinity value when the input has none, and the input affinity
when it has one. -/
theorem Handle_affinity_defaulted (u : Utils) (pod : Pod)
    (hex : Handle.exempt u pod.Namespace = false)
    (hg : ∀ g ∈ pod.Spec.SchedulingGates.getD [], g.Name ≠ schedulingGateName) :
    (pod.Spec.Affinity = none →
      (Handle.inject u pod).Spec.Affinity = some ⟨none, none, none⟩) ∧
    (∀ aff, pod.Spec.Affinity = some aff →
      (Handle.inject u pod).Spec.Affinity = some aff) := by
  rw [Handle.inject_of_new u pod hex hg]
  constructor
  · intro h
    simp [h, Affinity.empty]
  · intro aff h
    simp [h]

/-- C15 at two pods of namespace `default`: without an affinity the output has the empty
one, with an affinity the output has the same. -/
theorem Handle_affinity_defaulted_witness :
    (Handle.inject exampleUtils
        (examplePod (go "default") none none none)).Spec.Affinity = some ⟨none, none, none⟩ ∧
      (Handle.inject exampleUtils (examplePod (go "default") none none
        (some ⟨some (go "zone-a"), none, none⟩))).Spec.Affinity =
          some ⟨some (go "zone-a"), none, none⟩ :=
  ⟨(Handle_affinity_defaulted exampleUtils (examplePod (go "default") none none none)
      (by decide) (by decide)).1 rfl,
    (Handle_affinity_defaulted exampleUtils (examplePod (go "default") none none
      (some ⟨some (go "zone-a"), none, none⟩)) (by decide) (by decide)).2 _ rfl⟩

/-! ## What `Handle` changes and what it keeps -/

/-- C16: `Handle` only moves a pod from not gated to gated or leaves it as it is: when the
pod it serialises differs from the input, the input namespace was not exempt, the input
had no entry named `multiarch.openshift.io/scheduling-gate` and the output has one; and
an input that has such an entry keeps it. -/
theorem Handle_only_gates (u : Utils) (pod : Pod) :
    (Handle.inject u pod ≠ pod →
      Handle.exempt u pod.Namespace = false ∧
      (∀ g ∈ pod.Spec.SchedulingGates.getD [], g.Name ≠ schedulingGateName) ∧
      ∃ g ∈ (Handle.inject u pod).Spec.SchedulingGates.getD [],
        g.Name = schedulingGateName) ∧
    ((∃ g ∈ pod.Spec.SchedulingGates.getD [], g.Name = schedulingGateName) →
      ∃ g ∈ (Handle.inject u pod).Spec.SchedulingGates.getD [],
        g.Name = schedulingGateName) := by
  constructor
  · intro hne
    by_cases hex : Handle.exempt u pod.Namespace = true
    · exact absurd (Handle.inject_of_exempt u pod hex) hne
    · by_cases hg : ∃ g ∈ pod.Spec.SchedulingGates.getD [], g.Name = schedulingGateName
      · exact absurd (Handle.inject_of_gated u pod hg) hne
      · have hex2 : Handle.exempt u pod.Namespace = false := by simpa using hex
        have hg2 : ∀ g ∈ pod.Spec.SchedulingGates.getD [], g.Name ≠ schedulingGateName := by
          intro g hmem hname
          exact hg ⟨g, hmem, hname⟩
        refine ⟨hex2, hg2, ?_⟩
        rw [Handle.inject_of_new u pod hex2 hg2]
        exact ⟨schedulingGate, by simp, rfl⟩
  · intro hg
    rw [Handle.inject_of_gated u pod hg]
    exact hg

/-- C16 at a pod of namespace `default` without gates: the output differs from the input,
and it carries the gate. -/
theorem Handle_only_gates_witness :
    Handle.inject exampleUtils (examplePod (go "default") none none none) ≠
        examplePod (go "default") none none none ∧
      ∃ g ∈ (Handle.inject exampleUtils
          (examplePod (go "default") none none none)).Spec.SchedulingGates.getD [],
        g.Name = schedulingGateName :=
  ⟨by decide,
    ((Handle_only_gates exampleUtils (examplePod (go "default") none none none)).1
      (by decide)).2.2⟩

/-- C17: for every pod, the pod `Handle` serialises has the name, the namespace and all
the remaining fields of the input, in the pod and in its spec: only the gate sequence,
the affinity and the label map can differ, and the exemption test gives the same answer
on the output as on the input. -/
theorem Handle_keeps_other_fields (u : Utils) (pod : Pod) :
    (Handle.inject u pod).Namespace = pod.Namespace ∧
      (Handle.inject u pod).Name = pod.Name ∧
      (Handle.inject u pod).Rest = pod.Rest ∧
      (Handle.inject u pod).Spec.Rest = pod.Spec.Rest ∧
      Handle.inject u pod =
        { pod with
          Labels := (Handle.inject u pod).Labels
          Spec := { pod.Spec with
            SchedulingGates := (Handle.inject u pod).Spec.SchedulingGates
            Affinity := (Handle.inject u pod).Spec.Affinity } } ∧
      Handle.exempt u (Handle.inject u pod).Namespace = Handle.exempt u pod.Namespace := by
  by_cases hex : Handle.exempt u pod.Namespace = true
  · rw [Handle.inject_of_exempt u pod hex]
    exact ⟨rfl, rfl, rfl, rfl, rfl, rfl⟩
  · by_cases hg : ∃ g ∈ pod.Spec.SchedulingGates.getD [], g.Name = schedulingGateName
    · rw [Handle.inject_of_gated u pod hg]
      exact ⟨rfl, rfl, rfl, rfl, rfl, rfl⟩
    · have hg2 : ∀ g ∈ pod.Spec.SchedulingGates.getD [], g.Name ≠ schedulingGateName := by
        intro g hmem hname
        exact hg ⟨g, hmem, hname⟩
      rw [Handle.inject_of_new u pod (by simpa using hex) hg2]
      exact ⟨rfl, rfl, rfl, rfl, rfl, rfl⟩

/-! ## The slice of the fake inspector -/

/-- C18: the fake `GetCompatibleArchitecturesSet` drops the first two bytes of the
reference whatever they are. For a reference of at least two bytes it returns a set with a
nil error or a nil set with the error `image not found`, as the mock map has or has not
the reference without its first two bytes, so two such references with the same remainder
give the same result; for a reference of fewer than two bytes the slice is out of range
and the call panics, returning nothing. -/
theorem GetCompatibleArchitecturesSet_slice (i : registryInspector) (ctx : Context)
    (imageReference : GoString) (secrets : List GoBytes) :
    (2 ≤ imageReference.length →
      GetCompatibleArchitecturesSet i ctx imageReference secrets =
        match mockLookup MockImagesArchitectureMap (imageReference.drop 2) with
        | some archSet => .returned (some archSet, none)
        | none => .returned (none, some (go "image not found"))) ∧
    (2 ≤ imageReference.length →
      (∃ archSet, GetCompatibleArchitecturesSet i ctx imageReference secrets =
        .returned (some archSet, none)) ∨
      GetCompatibleArchitecturesSet i ctx imageReference secrets =
        .returned (none, some (go "image not found"))) ∧
    (∀ other : GoString, 2 ≤ imageReference.length → 2 ≤ other.length →
      other.drop 2 = imageReference.drop 2 →
      GetCompatibleArchitecturesSet i ctx other secrets =
        GetCompatibleArchitecturesSet i ctx imageReference secrets) ∧
    (∀ (b1 b2 : UInt8) (r : GoString),
      GetCompatibleArchitecturesSet i ctx (b1 :: b2 :: r) secrets =
        GetCompatibleArchitecturesSet i ctx (go "//" ++ r) secrets) ∧
    (imageReference.length < 2 →
      (∃ message, GetCompatibleArchitecturesSet i ctx imageReference secrets =
        .panicked message) ∧
      ∀ values, GetCompatibleArchitecturesSet i ctx imageReference secrets ≠
        .returned values) := by
  have hlong : ∀ ref : GoString, 2 ≤ ref.length →
      GetCompatibleArchitecturesSet i ctx ref secrets =
        match mockLookup MockImagesArchitectureMap (ref.drop 2) with
        | some archSet => .returned (some archSet, none)
        | none => .returned (none, some (go "image not found")) := by
    intro ref hlen
    have hnot : ¬ ref.length < 2 := Nat.not_lt.mpr hlen
    simp [GetCompatibleArchitecturesSet, hnot]
  refine ⟨hlong imageReference, ?_, ?_, ?_, ?_⟩
  · intro hlen
    rw [hlong imageReference hlen]
    cases mockLookup MockImagesArchitectureMap (imageReference.drop 2) with
    | none => exact Or.inr rfl
    | some archSet => exact Or.inl ⟨archSet, rfl⟩
  · intro other hlen hother hdrop
    rw [hlong imageReference hlen, hlong other hother, hdrop]
  · intro b1 b2 r
    rw [hlong (b1 :: b2 :: r) (by simp), hlong (go "//" ++ r) (by simp [go_slashes])]
    simp [go_slashes]
  · intro hshort
    simp [GetCompatibleArchitecturesSet, hshort]

/-- C18 at three references: `xx` in front of the multi-arch mock reference gives its set,
no `//` needed; `ab` gives the error; the one-byte reference `/` panics. -/
theorem GetCompatibleArchitecturesSet_slice_witness :
    GetCompatibleArchitecturesSet ⟨[]⟩ ⟨[]⟩
        (go "xxmy-registry.io/library/multi-arch-image:latest") [] =
        .returned (some {go "amd64", go "arm64"}, none) ∧
      GetCompatibleArchitecturesSet ⟨[]⟩ ⟨[]⟩ (go "ab") [] =
        .returned (none, some (go "image not found")) ∧
      ∃ message, GetCompatibleArchitecturesSet ⟨[]⟩ ⟨[]⟩ (go "/") [] = .panicked message :=
  ⟨((GetCompatibleArchitecturesSet_slice ⟨[]⟩ ⟨[]⟩
      (go "xxmy-registry.io/library/multi-arch-image:latest") []).1 (by decide)).trans
      (by decide),
    ((GetCompatibleArchitecturesSet_slice ⟨[]⟩ ⟨[]⟩ (go "ab") []).1 (by decide)).trans
      (by decide),
    ((GetCompatibleArchitecturesSet_slice ⟨[]⟩ ⟨[]⟩ (go "/") []).2.2.2.2 (by decide)).1⟩

end MultiarchManager
